import Mathlib

/-!
Shallow embedding of the job subsystem of the disque repository
(file src/job.c): job identifier generation, job serialization, the
job registry, the cluster-deletion / client-unblock cleanup path and
the ADDJOB command, together with theorems settling the frozen claims
about this code.

Bytes are modelled as natural numbers (the value of the C `char` /
`unsigned char`), byte buffers as `List Nat`.  Machine arithmetic that
can overflow is made explicit with `% 2^w` at the serialization
boundary.  C code that dereferences a possibly-NULL pointer is
modelled with `Option`, returning `none` where the C program has
undefined behaviour.
-/

/-- Job states.  The numeric values live in job.h, which is not part of
the sources; the set of states is modelled from the spec
(WAIT_REPL, ACTIVE, QUEUED, ACKED, DELETED).  Only `wait_repl` is
distinguished by the code under verification. -/
inductive JobState where
  | wait_repl
  | active
  | queued
  | acked
  | deleted
deriving DecidableEq

/-- Numeric code of a job state stored in the serialized one-byte
`state` field.  Modelled from the spec: the concrete values are in the
missing job.h; the claims do not depend on them. -/
def jobStateCode : JobState → Nat
  | .wait_repl => 0
  | .active => 1
  | .queued => 2
  | .acked => 3
  | .deleted => 4

/-- The `job` structure of job.h, modelled from the spec's data model
(§3) and wire layout (§6): scalar fields `id`, `state`, `flags`,
`repl`, `ctime`, `etime`, `qtime`, `rtime`, then the owned references
`queue` (NULL-able pointer to the queue name object), `body`
(NULL-able sds) and the two node sets.  Node names and the id are byte
strings. -/
structure Job where
  id : List Nat
  state : JobState
  flags : Nat
  repl : Nat
  ctime : Nat
  etime : Nat
  qtime : Nat
  rtime : Nat
  queue : Option (List Nat)
  body : Option (List Nat)
  nodes_delivered : List (List Nat)
  nodes_confirmed : List (List Nat)
deriving DecidableEq

/-- Server-side state touched by job.c: the jobs registry
(`server.jobs`, a dict keyed by job id), the static `prev_ctime` of
`addjobCommand`, and `server.cluster->reachable_nodes_count`. -/
structure ServerState where
  jobs : List Job
  prev_ctime : Nat
  reachable_nodes_count : Int
deriving DecidableEq

/-- The part of a client relevant here: `c->bpop.job` (NULL-able). -/
structure Client where
  bpop_job : Option Job
deriving DecidableEq

/- ------------------------- Low level jobs functions ---------------------- -/

/-- The hex charset of `generateJobID`: `"0123456789abcdef"`, as ASCII
byte values. -/
def charset : List Nat := "0123456789abcdef".toList.map Char.toNat

/-- One byte rendered as two hex characters, as in the loop
`id[0] = charset[(hash[j]&0xf0)>>4]; id[1] = charset[hash[j]&0xf]`. -/
def hexPairOfByte (b : Nat) : List Nat :=
  [charset.getD ((b &&& 0xf0) >>> 4) 0, charset.getD (b &&& 0xf) 0]

/-- Model of `generateJobID` from job.c.  The SHA1 pseudo-random material
(derived from the per-process seed and counter via sha1.c, which is
outside this file's sources and treated as an opaque PRF per the spec)
is passed in as `hash_rand`; the code uses its first 16 bytes.
`node_name` is `server.cluster->myself->name`, of which the first 8
bytes are embedded.  The TTL is divided by 60 and its low 16 bits are
appended big-endian as bytes 16 and 17 before hex conversion. -/
def generateJobID (node_name hash_rand : List Nat) (ttl : Nat) : List Nat :=
  let ttlm := ttl / 60
  let hash := hash_rand.take 16 ++ [(ttlm &&& 0xff00) >>> 8, ttlm &&& 0xff]
  [68, 73] ++ node_name.take 8 ++ (hash.map hexPairOfByte).flatten ++ [83, 81]

/-- Model of `registerJob` from job.c: `dictAdd(server.jobs, j->id, NULL)` —
fails (returning DISQUE_ERR, here `false`) if the id is already a key,
leaving the dict unchanged; otherwise inserts the job. -/
def registerJob (st : ServerState) (j : Job) : Bool × ServerState :=
  if st.jobs.any (fun x => x.id == j.id) then (false, st)
  else (true, { st with jobs := j :: st.jobs })

/-- Model of `lookupJob` from job.c: find the registered job with the given id. -/
def lookupJob (st : ServerState) (id : List Nat) : Option Job :=
  st.jobs.find? (fun x => x.id == id)

/- ---------------------------  Jobs serialization ------------------------- -/

/-- Little-endian 32-bit encoding of a value (`intrev32ifbe` result
laid out in memory). -/
def le32 (n : Nat) : List Nat :=
  [n % 256, n / 256 % 256, n / 65536 % 256, n / 16777216 % 256]

/-- Little-endian 16-bit encoding. -/
def le16 (n : Nat) : List Nat := [n % 256, n / 256 % 256]

/-- Little-endian 64-bit encoding. -/
def le64 (n : Nat) : List Nat :=
  [n % 256, n / 256 % 256, n / 65536 % 256, n / 16777216 % 256,
   n / 4294967296 % 256, n / 1099511627776 % 256,
   n / 281474976710656 % 256, n / 72057594037927936 % 256]

/-- Decode the first four bytes of a buffer as a little-endian u32. -/
def readLe32 : List Nat → Nat
  | a :: b :: c :: d :: _ => a + 256 * b + 65536 * c + 16777216 * d
  | _ => 0

/-- Constant `DISQUE_CLUSTER_NAMELEN`: fixed length of a node name.  Modelled
from the spec (declared in the missing cluster.h); the claims do not
depend on the concrete value. -/
def DISQUE_CLUSTER_NAMELEN : Nat := 40

/-- Constant `JOB_STRUCT_SER_LEN`: size of the directly-serializable fixed
header of the job structure.  Modelled from the spec's wire layout §6:
id(48) state(1) flags(1) repl(2) ctime(8) etime(4) qtime(4) rtime(4). -/
def JOB_STRUCT_SER_LEN : Nat := 48 + 1 + 1 + 2 + 8 + 4 + 4 + 4

/-- Model of `serializeSdsString` from job.c: append a 4-byte little-endian
length and, when the sds is not NULL, its bytes, to the buffer
position `p`. -/
def serializeSdsString (p : List Nat) (s : Option (List Nat)) : List Nat :=
  let len := match s with | some s => s.length | none => 0
  p ++ le32 len ++ (match s with | some s => s | none => [])

/-- The fixed header written by `serializeJob`'s
`memcpy(sj,j,JOB_STRUCT_SER_LEN)` followed by the endianness fixes of
`repl`, `ctime`, `etime`, `qtime`, `rtime`.  Field order per the
spec's wire layout §6 (the struct declaration is in the missing
job.h). -/
def serializedHeader (j : Job) : List Nat :=
  j.id ++ [jobStateCode j.state] ++ [j.flags % 256] ++ le16 j.repl ++
  le64 j.ctime ++ le32 j.etime ++ le32 j.qtime ++ le32 j.rtime

/-- Model of `serializeJob` from job.c.  The precomputed `len` counts the 4
prefix bytes, the fixed header, each length-prefixed string, and the
delivered-node list; the written prefix is `intrev32ifbe(len)`, i.e.
the little-endian encoding of `len` itself.  Writing the queue name
dereferences `j->queue->ptr` unconditionally, so a job without a queue
hits undefined behaviour: modelled as `none`. -/
def serializeJob (j : Job) : Option (List Nat) :=
  let len := 4 + JOB_STRUCT_SER_LEN
    + 4 + (match j.queue with | some q => q.length | none => 0)
    + 4 + (match j.body with | some b => b.length | none => 0)
    + 4 + j.nodes_delivered.length * DISQUE_CLUSTER_NAMELEN
  match j.queue with
  | none => none
  | some qname =>
    let msg := le32 len ++ serializedHeader j
    let msg := serializeSdsString msg (some qname)
    let msg := serializeSdsString msg j.body
    let msg := msg ++ le32 j.nodes_delivered.length ++ j.nodes_delivered.flatten
    some msg

/- -------------------------  Jobs cluster functions ----------------------- -/

/-- Model of `deleteJobFromCluster` from job.c.  The body of the C function is
an unimplemented stub — three TODO comments ("Send DELJOB message to
the right nodes", "Unregister the job", "Free the job") and no code —
so it performs no state change at all. -/
def deleteJobFromCluster (st : ServerState) (_j : Job) : ServerState := st

/- --------------------------  Jobs related commands ----------------------- -/

/-- Model of `unblockClientWaitingJobRepl` from job.c: if the blocked client's
job is still in WAIT_REPL, call `deleteJobFromCluster` on it; in all
cases clear `c->bpop.job`. -/
def unblockClientWaitingJobRepl (st : ServerState) (c : Client) :
    ServerState × Client :=
  ((match c.bpop_job with
    | some j =>
      if j.state = JobState.wait_repl then deleteJobFromCluster st j else st
    | none => st),
   { c with bpop_job := none })

/-- The ctime assignment of `addjobCommand`:
`job->ctime = mstime()*1000000; if (job->ctime == prev_ctime) job->ctime++;`. -/
def assignCtime (ms_now prev : Nat) : Nat :=
  let c := ms_now * 1000000
  if c = prev then c + 1 else c

/-- The options of the ADDJOB command after argument parsing:
`none` means the option was absent (so the initialisers
`replicate = 3`, `ttl = 3600*24`, `retry = -1` stand). -/
structure AddjobOptions where
  replicate : Option Int
  ttl : Option Int
  retry : Option Int
  async : Bool
deriving DecidableEq

/-- The replies `addjobCommand` can produce (a blocked client has not
been replied to yet). -/
inductive AddjobReply where
  | errReplicate
  | errTtl
  | errRetry
  | errReplRetryConflict
  | errNoRepl
  | errInternal
  | jobID (id : List Nat)
  | blockedNoReply
deriving DecidableEq

/-- Whether a reply is one of the validation errors emitted before job
creation. -/
def AddjobReply.isValidationError : AddjobReply → Bool
  | .errReplicate => true
  | .errTtl => true
  | .errRetry => true
  | .errReplRetryConflict => true
  | .errNoRepl => true
  | _ => false

/-- Observable outcome of one `addjobCommand` invocation: the reply,
the resulting server state, the job that ended up registered (if any),
and flags recording which side-effecting collaborators were invoked
(`queueAddJob`, `replicateJobInCluster`, `blockClient`,
`serverLog(DISQUE_WARNING,...)`, `freeJob`). -/
structure AddjobResult where
  reply : AddjobReply
  state : ServerState
  createdJob : Option Job
  queued : Bool
  replicated : Bool
  blockedClient : Bool
  loggedWarning : Bool
  freedJob : Bool
deriving DecidableEq

/-- An abort before job creation: an error reply and no state change. -/
def abortNoEffect (r : AddjobReply) (st : ServerState) : AddjobResult :=
  { reply := r, state := st, createdJob := none, queued := false,
    replicated := false, blockedClient := false, loggedWarning := false,
    freedJob := false }

/-- The validation-failure conditions of `addjobCommand`, in the order
the C code checks them: REPLICATE given outside [1,65535]; TTL given
and ≤ 0; RETRY given and < 0; effective REPLICATE > 1 together with an
explicit RETRY 0; effective REPLICATE - 1 exceeding
`reachable_nodes_count`. -/
def validationFails (st : ServerState) (opts : AddjobOptions) : Prop :=
  (opts.replicate.isSome = true ∧
    (opts.replicate.getD 3 ≤ 0 ∨ opts.replicate.getD 3 > 65535)) ∨
  (opts.ttl.isSome = true ∧ opts.ttl.getD (3600 * 24) ≤ 0) ∨
  (opts.retry.isSome = true ∧ opts.retry.getD (-1) < 0) ∨
  (opts.replicate.getD 3 > 1 ∧ opts.retry.getD (-1) = 0) ∨
  (opts.replicate.getD 3 - 1 > st.reachable_nodes_count)

instance (st : ServerState) (opts : AddjobOptions) :
    Decidable (validationFails st opts) := by
  unfold validationFails; infer_instance

/-- `addjobCommand` from job.c, as a function of the server state, the
node name and pseudo-random material feeding `generateJobID`, the
current `mstime()` reading, the queue-name and body arguments, and the
parsed options.  It mirrors the C control flow: option validation, the
REPLICATE/RETRY conflict check, the RETRY default, the reachable-nodes
check, job creation (`createJob` + field assignments), registration,
then either blocking the client (synchronous replication) or queueing
and replying with the job id.  The timeout argument is parsed but
otherwise unused before blocking, and `replicateJobInCluster` is an
empty stub in the sources, so neither affects the state. -/
def addjobCommand (st : ServerState) (node_name hash_rand : List Nat)
    (ms_now : Nat) (queue_name body : List Nat) (opts : AddjobOptions) :
    AddjobResult :=
  let replicate := opts.replicate.getD 3
  let ttl := opts.ttl.getD (3600 * 24)
  let retry := opts.retry.getD (-1)
  if opts.replicate.isSome = true ∧ (replicate ≤ 0 ∨ replicate > 65535) then
    abortNoEffect .errReplicate st
  else if opts.ttl.isSome = true ∧ ttl ≤ 0 then
    abortNoEffect .errTtl st
  else if opts.retry.isSome = true ∧ retry < 0 then
    abortNoEffect .errRetry st
  else if replicate > 1 ∧ retry = 0 then
    abortNoEffect .errReplRetryConflict st
  else
    let retry := if retry = -1 then
      (let r := ttl.tdiv 10; if r = 0 then 1 else r) else retry
    if replicate - 1 > st.reachable_nodes_count then
      abortNoEffect .errNoRepl st
    else
      let id := generateJobID node_name hash_rand ttl.toNat
      let ctime := assignCtime ms_now st.prev_ctime
      let job : Job :=
        { id := id, state := .wait_repl, flags := 0, repl := replicate.toNat,
          ctime := ctime, etime := ctime + ttl.toNat, qtime := 0,
          rtime := retry.toNat, queue := some queue_name, body := some body,
          nodes_delivered := [], nodes_confirmed := [] }
      let st1 := { st with prev_ctime := ctime }
      let reg := registerJob st1 job
      if reg.1 = false then
        { reply := .errInternal, state := reg.2, createdJob := none,
          queued := false, replicated := false, blockedClient := false,
          loggedWarning := true, freedJob := true }
      else if replicate > 1 ∧ opts.async = false then
        { reply := .blockedNoReply, state := reg.2, createdJob := some job,
          queued := false, replicated := true, blockedClient := true,
          loggedWarning := false, freedJob := false }
      else
        { reply := .jobID id, state := reg.2, createdJob := some job,
          queued := true, replicated := decide (replicate > 1),
          blockedClient := false, loggedWarning := false, freedJob := false }

/- ------------------------------ Fixtures -------------------------------- -/

set_option maxRecDepth 100000

/-- An 8-byte node name (`"aaaaaaaa"`). -/
def sampleNodeName : List Nat := List.replicate 8 97

/-- 20 bytes of SHA1 output for the first ID generation. -/
def sampleHash1 : List Nat := List.replicate 20 1

/-- 20 bytes of SHA1 output for a second ID generation. -/
def sampleHash2 : List Nat := List.replicate 20 2

/-- 20 bytes of SHA1 output for a third ID generation. -/
def sampleHash3 : List Nat := List.replicate 20 3

/-- A server with an empty registry and 5 reachable peers. -/
def stEmpty : ServerState :=
  { jobs := [], prev_ctime := 0, reachable_nodes_count := 5 }

/-- ADDJOB with no options given. -/
def optsNone : AddjobOptions := ⟨none, none, none, false⟩

/-- ADDJOB with only `TTL 100`. -/
def optsTtl100 : AddjobOptions := ⟨none, some 100, none, false⟩

/-- A fully populated job used to exercise the serializer. -/
def jC2 : Job :=
  { id := List.replicate 48 65, state := .queued, flags := 0, repl := 1,
    ctime := 7, etime := 10, qtime := 0, rtime := 1, queue := some [113, 49],
    body := some [104, 105], nodes_delivered := [List.replicate 40 98],
    nodes_confirmed := [] }

/-- A job with no queue assigned (as `createJob` leaves it). -/
def jNoQueue : Job :=
  { id := List.replicate 48 121, state := .active, flags := 0, repl := 1,
    ctime := 1, etime := 100, qtime := 0, rtime := 1, queue := none,
    body := some [98], nodes_delivered := [], nodes_confirmed := [] }

/-- A registered job still waiting for synchronous replication. -/
def jWaitRepl : Job :=
  { id := List.replicate 48 120, state := .wait_repl, flags := 0, repl := 3,
    ctime := 1, etime := 100, qtime := 0, rtime := 1, queue := some [113],
    body := some [98], nodes_delivered := [], nodes_confirmed := [] }

/-- A server whose registry holds `jWaitRepl`. -/
def stWithWaiting : ServerState :=
  { jobs := [jWaitRepl], prev_ctime := 1, reachable_nodes_count := 5 }

/-- A producer connection blocked on `jWaitRepl`. -/
def blockedOnWaitRepl : Client := { bpop_job := some jWaitRepl }

/-- A job whose id collides with the one `generateJobID` produces for
`sampleNodeName`/`sampleHash1` and the default TTL. -/
def dupJob : Job :=
  { id := generateJobID sampleNodeName sampleHash1 86400, state := .queued,
    flags := 0, repl := 1, ctime := 1, etime := 2, qtime := 0, rtime := 1,
    queue := some [113], body := some [98], nodes_delivered := [],
    nodes_confirmed := [] }

/-- A server whose registry already holds `dupJob`. -/
def stWithDup : ServerState :=
  { jobs := [dupJob], prev_ctime := 0, reachable_nodes_count := 5 }

/- ---------------------------- Helper lemmas ------------------------------ -/

theorem le32_length (n : Nat) : (le32 n).length = 4 := rfl

theorem le16_length (n : Nat) : (le16 n).length = 2 := rfl

theorem le64_length (n : Nat) : (le64 n).length = 8 := rfl

theorem readLe32_le32_append (n : Nat) (rest : List Nat) :
    readLe32 (le32 n ++ rest) = n % 4294967296 := by
  simp only [le32, List.cons_append, List.nil_append, readLe32]
  omega

theorem flatten_length_of_forall {L : List (List Nat)} {k : Nat}
    (h : ∀ n ∈ L, n.length = k) : L.flatten.length = L.length * k := by
  induction L with
  | nil => simp
  | cons a t ih =>
    simp only [List.flatten_cons, List.length_append, List.length_cons]
    rw [h a (List.mem_cons_self a t), ih fun n hn => h n (List.mem_cons_of_mem a hn)]
    ring

theorem tdiv10_toNat_default (t : Int) (ht : 0 < t) :
    (if t.tdiv 10 = 0 then (1 : Int) else t.tdiv 10).toNat
      = max 1 (t.toNat / 10) := by
  cases t with
  | ofNat m =>
    have hdiv : (Int.ofNat m).tdiv 10 = Int.ofNat (m / 10) := rfl
    rw [hdiv]
    by_cases h0 : m / 10 = 0
    · simp [h0]
    · simp [h0]; omega
  | negSucc m => rw [Int.negSucc_eq] at ht; omega

/- ------------------------------ Claim theorems --------------------------- -/

/-- Claim C1 (refuted — bug in the code): three ADDJOB submissions
processed in the same wall-clock millisecond (mstime() = 5,
prev_ctime initially 0) receive ctimes 5000000, 5000001 and 5000000:
the third job's ctime is smaller than the second's, because the
tie-break `if (job->ctime == prev_ctime) job->ctime++` only fires on
exact equality with the previous value, contradicting the strictly
increasing ordering the code's own comment and the spec describe. -/
theorem addjob_ctime_not_strictly_increasing :
    (addjobCommand stEmpty sampleNodeName sampleHash1 5 [113] [98]
        optsNone).createdJob.map Job.ctime = some 5000000 ∧
    (addjobCommand (addjobCommand stEmpty sampleNodeName sampleHash1 5 [113]
        [98] optsNone).state sampleNodeName sampleHash2 5 [113] [98]
        optsNone).createdJob.map Job.ctime = some 5000001 ∧
    (addjobCommand (addjobCommand (addjobCommand stEmpty sampleNodeName
        sampleHash1 5 [113] [98] optsNone).state sampleNodeName sampleHash2 5
        [113] [98] optsNone).state sampleNodeName sampleHash3 5 [113] [98]
        optsNone).createdJob.map Job.ctime = some 5000000 := by
  decide

/-- Claim C3 (refuted — bug in the code): for ttl = 3932160
(ttl/60 = 65536) the four TTL hex digits of the generated ID are
"0000" (bytes 48,48,48,48), because the code keeps only the low 16
bits of ttl/60, while the claim — and the code's own comment, which
says the value is "ceiled to 2^16-1" — require the saturated value
min(ttl/60, 0xFFFF) = 65535, whose digits would be "ffff"
(bytes 102,102,102,102). -/
theorem generateJobID_large_ttl_wraps_to_zero :
    ((generateJobID sampleNodeName sampleHash1 3932160).drop 42).take 4
        = [48, 48, 48, 48] ∧
    (generateJobID sampleNodeName sampleHash1 3932160).length = 48 ∧
    hexPairOfByte ((min (3932160 / 60) 0xFFFF &&& 0xff00) >>> 8) ++
        hexPairOfByte (min (3932160 / 60) 0xFFFF &&& 0xff)
        = [102, 102, 102, 102] := by
  decide

/-- Claim C4 (refuted — bug in the code): unblocking a producer whose
job is still in WAIT_REPL does route through `deleteJobFromCluster`,
but that function's body is an empty TODO stub, so the job is neither
unregistered nor freed: a subsequent lookup of its ID still finds it,
contradicting the claim (and the stub's own doc comment) that the job
is removed from the Registry. -/
theorem unblock_wait_repl_job_still_registered :
    lookupJob (unblockClientWaitingJobRepl stWithWaiting blockedOnWaitRepl).1
        jWaitRepl.id = some jWaitRepl ∧
    (unblockClientWaitingJobRepl stWithWaiting blockedOnWaitRepl).2.bpop_job
        = none := by
  decide

/-- Claim C7 (refuted — bug in the code): serializing a job with no
queue assigned does not succeed: although the length computation and
`serializeSdsString` both handle the missing queue, the write path
dereferences `j->queue->ptr` unconditionally (undefined behaviour on
NULL, modelled as `none`), so no buffer with a zero-length queue-name
field is produced. -/
theorem serializeJob_no_queue_fails : serializeJob jNoQueue = none := by
  decide

/-- Claim C8 (confirmed): the confirmed-node set is not serialized —
two jobs that differ only in `nodes_confirmed` serialize to identical
byte buffers. -/
theorem serializeJob_ignores_nodes_confirmed (j : Job)
    (s : List (List Nat)) :
    serializeJob { j with nodes_confirmed := s } = serializeJob j := rfl

/-- Claim C2 as stated is false: for the concrete job `jC2` the
4-byte little-endian prefix decodes to 132, the length of the whole
buffer including the prefix itself, not to 128 = buffer length - 4. -/
theorem serialize_length_claim_counterexample :
    readLe32 ((serializeJob jC2).getD [])
      ≠ ((serializeJob jC2).getD []).length - 4 := by
  decide

/-- Claim C2, amended: the first 4 bytes of the buffer produced by
`serializeJob` are a little-endian u32 equal to the TOTAL buffer
length including the 4 prefix bytes themselves (reduced mod 2^32) —
i.e. 4 more than the length of everything that follows the prefix. -/
theorem serialize_length_prefix_is_total_length (j : Job) (buf : List Nat)
    (hbuf : serializeJob j = some buf) (hid : j.id.length = 48)
    (hnodes : ∀ n ∈ j.nodes_delivered, n.length = DISQUE_CLUSTER_NAMELEN) :
    readLe32 buf = buf.length % 4294967296 := by
  have hfl : j.nodes_delivered.flatten.length
      = j.nodes_delivered.length * DISQUE_CLUSTER_NAMELEN :=
    flatten_length_of_forall hnodes
  cases hq : j.queue with
  | none => simp [serializeJob, hq] at hbuf
  | some q =>
    cases hb : j.body with
    | none =>
      simp only [serializeJob, hq, hb, serializeSdsString,
        Option.some.injEq] at hbuf
      subst hbuf
      simp only [List.append_assoc]
      rw [readLe32_le32_append]
      simp [List.length_append, le32_length, le16_length, le64_length,
        serializedHeader, hid, hfl, JOB_STRUCT_SER_LEN, DISQUE_CLUSTER_NAMELEN]
      ring_nf
    | some b =>
      simp only [serializeJob, hq, hb, serializeSdsString,
        Option.some.injEq] at hbuf
      subst hbuf
      simp only [List.append_assoc]
      rw [readLe32_le32_append]
      simp [List.length_append, le32_length, le16_length, le64_length,
        serializedHeader, hid, hfl, JOB_STRUCT_SER_LEN, DISQUE_CLUSTER_NAMELEN]
      ring_nf

/-- Witness for the amended claim C2 at the concrete job `jC2`: its
132-byte serialization carries the prefix value 132. -/
theorem serialize_length_prefix_is_total_length_witness :
    readLe32 ((serializeJob jC2).getD [])
      = ((serializeJob jC2).getD []).length % 4294967296 :=
  serialize_length_prefix_is_total_length jC2 ((serializeJob jC2).getD [])
    (by decide) (by decide) (by decide)

set_option maxHeartbeats 1000000 in
/-- Any validation failure makes `addjobCommand` return one of the
pre-creation error replies with the server state passed through
untouched. -/
theorem addjob_aborts_of_validationFails
    (st : ServerState) (nn hr : List Nat) (ms : Nat) (qn bd : List Nat)
    (opts : AddjobOptions) (h : validationFails st opts) :
    ∃ e, addjobCommand st nn hr ms qn bd opts = abortNoEffect e st ∧
      AddjobReply.isValidationError e = true := by
  unfold validationFails at h
  simp only [addjobCommand]
  split_ifs <;>
    first
      | exact ⟨_, rfl, rfl⟩
      | (exfalso; tauto)

/-- Claim C5 (confirmed): every ADDJOB submission that fails
validation (REPLICATE outside [1,65535], TTL ≤ 0, RETRY < 0,
REPLICATE > 1 together with RETRY 0, or requested replication minus
one exceeding the reachable peer count) replies with an error and has
no side effects: the server state — registry included — is unchanged,
no job is created, and neither queueing, replication nor client
blocking happens. -/
theorem addjob_validation_error_no_side_effects
    (st : ServerState) (nn hr : List Nat) (ms : Nat) (qn bd : List Nat)
    (opts : AddjobOptions) (h : validationFails st opts) :
    (addjobCommand st nn hr ms qn bd opts).state = st ∧
    (addjobCommand st nn hr ms qn bd opts).createdJob = none ∧
    (addjobCommand st nn hr ms qn bd opts).queued = false ∧
    (addjobCommand st nn hr ms qn bd opts).replicated = false ∧
    (addjobCommand st nn hr ms qn bd opts).blockedClient = false ∧
    (addjobCommand st nn hr ms qn bd opts).reply.isValidationError = true := by
  obtain ⟨e, heq, he⟩ :=
    addjob_aborts_of_validationFails st nn hr ms qn bd opts h
  rw [heq]
  simp [abortNoEffect, he]

/-- Witness for claim C5: `ADDJOB ... REPLICATE 0` against the empty
server aborts with a validation error and no side effects. -/
theorem addjob_validation_error_no_side_effects_witness :
    (addjobCommand stEmpty sampleNodeName sampleHash1 5 [113] [98]
        ⟨some 0, none, none, false⟩).state = stEmpty ∧
    (addjobCommand stEmpty sampleNodeName sampleHash1 5 [113] [98]
        ⟨some 0, none, none, false⟩).createdJob = none ∧
    (addjobCommand stEmpty sampleNodeName sampleHash1 5 [113] [98]
        ⟨some 0, none, none, false⟩).queued = false ∧
    (addjobCommand stEmpty sampleNodeName sampleHash1 5 [113] [98]
        ⟨some 0, none, none, false⟩).replicated = false ∧
    (addjobCommand stEmpty sampleNodeName sampleHash1 5 [113] [98]
        ⟨some 0, none, none, false⟩).blockedClient = false ∧
    (addjobCommand stEmpty sampleNodeName sampleHash1 5 [113] [98]
        ⟨some 0, none, none, false⟩).reply.isValidationError = true :=
  addjob_validation_error_no_side_effects stEmpty sampleNodeName sampleHash1 5
    [113] [98] ⟨some 0, none, none, false⟩ (by decide)

set_option maxHeartbeats 1000000 in
/-- Claim C6 (confirmed): when the generated job ID already exists in
the registry, `registerJob` fails without overwriting the existing
mapping, and `addjobCommand` logs a warning, frees the new job,
replies with the generic internal error, leaves the registry exactly
as it was, and performs neither queueing nor replication. -/
theorem addjob_duplicate_id_rejected
    (st : ServerState) (nn hr : List Nat) (ms : Nat) (qn bd : List Nat)
    (opts : AddjobOptions) (hok : ¬ validationFails st opts)
    (hdup : st.jobs.any (fun x => x.id ==
        generateJobID nn hr ((opts.ttl.getD (3600 * 24)).toNat)) = true) :
    (addjobCommand st nn hr ms qn bd opts).reply = .errInternal ∧
    (addjobCommand st nn hr ms qn bd opts).loggedWarning = true ∧
    (addjobCommand st nn hr ms qn bd opts).freedJob = true ∧
    (addjobCommand st nn hr ms qn bd opts).state.jobs = st.jobs ∧
    (addjobCommand st nn hr ms qn bd opts).queued = false ∧
    (addjobCommand st nn hr ms qn bd opts).replicated = false := by
  unfold validationFails at hok
  have hn1 : ¬ (opts.replicate.isSome = true ∧
      (opts.replicate.getD 3 ≤ 0 ∨ opts.replicate.getD 3 > 65535)) :=
    fun hc => hok (Or.inl hc)
  have hn2 : ¬ (opts.ttl.isSome = true ∧ opts.ttl.getD (3600 * 24) ≤ 0) :=
    fun hc => hok (Or.inr (Or.inl hc))
  have hn3 : ¬ (opts.retry.isSome = true ∧ opts.retry.getD (-1) < 0) :=
    fun hc => hok (Or.inr (Or.inr (Or.inl hc)))
  have hn4 : ¬ (opts.replicate.getD 3 > 1 ∧ opts.retry.getD (-1) = 0) :=
    fun hc => hok (Or.inr (Or.inr (Or.inr (Or.inl hc))))
  have hn5 : ¬ (opts.replicate.getD 3 - 1 > st.reachable_nodes_count) :=
    fun hc => hok (Or.inr (Or.inr (Or.inr (Or.inr hc))))
  simp only [addjobCommand, registerJob]
  rw [if_neg hn1, if_neg hn2, if_neg hn3, if_neg hn4, if_neg hn5]
  simp only [List.any_eq_true, beq_iff_eq] at hdup
  norm_num at hdup
  simp [hdup]

/-- Witness for claim C6: a default-option ADDJOB whose freshly
generated ID collides with the already-registered `dupJob`. -/
theorem addjob_duplicate_id_rejected_witness :
    (addjobCommand stWithDup sampleNodeName sampleHash1 5 [113] [98]
        optsNone).reply = .errInternal ∧
    (addjobCommand stWithDup sampleNodeName sampleHash1 5 [113] [98]
        optsNone).loggedWarning = true ∧
    (addjobCommand stWithDup sampleNodeName sampleHash1 5 [113] [98]
        optsNone).freedJob = true ∧
    (addjobCommand stWithDup sampleNodeName sampleHash1 5 [113] [98]
        optsNone).state.jobs = stWithDup.jobs ∧
    (addjobCommand stWithDup sampleNodeName sampleHash1 5 [113] [98]
        optsNone).queued = false ∧
    (addjobCommand stWithDup sampleNodeName sampleHash1 5 [113] [98]
        optsNone).replicated = false :=
  addjob_duplicate_id_rejected stWithDup sampleNodeName sampleHash1 5 [113]
    [98] optsNone (by decide) (by decide)

set_option maxHeartbeats 1000000 in
/-- Claim C9 (confirmed): a valid ADDJOB submission without RETRY
creates a job whose rtime is max(1, ttl/10) with integer division,
where ttl is the effective TTL (explicit value, or the 86400-second
default). -/
theorem addjob_default_retry
    (st : ServerState) (nn hr : List Nat) (ms : Nat) (qn bd : List Nat)
    (opts : AddjobOptions) (hretry : opts.retry = none)
    (hok : ¬ validationFails st opts)
    (hnodup : ¬ ∃ x ∈ st.jobs, x.id =
        generateJobID nn hr ((opts.ttl.getD 86400).toNat)) :
    (addjobCommand st nn hr ms qn bd opts).createdJob.map Job.rtime
      = some (max 1 ((opts.ttl.getD 86400).toNat / 10)) := by
  unfold validationFails at hok
  have hn1 : ¬ (opts.replicate.isSome = true ∧
      (opts.replicate.getD 3 ≤ 0 ∨ opts.replicate.getD 3 > 65535)) :=
    fun hc => hok (Or.inl hc)
  have hn2 : ¬ (opts.ttl.isSome = true ∧ opts.ttl.getD (3600 * 24) ≤ 0) :=
    fun hc => hok (Or.inr (Or.inl hc))
  have hn3 : ¬ (opts.retry.isSome = true ∧ opts.retry.getD (-1) < 0) :=
    fun hc => hok (Or.inr (Or.inr (Or.inl hc)))
  have hn4 : ¬ (opts.replicate.getD 3 > 1 ∧ opts.retry.getD (-1) = 0) :=
    fun hc => hok (Or.inr (Or.inr (Or.inr (Or.inl hc))))
  have hn5 : ¬ (opts.replicate.getD 3 - 1 > st.reachable_nodes_count) :=
    fun hc => hok (Or.inr (Or.inr (Or.inr (Or.inr hc))))
  have httl : (0 : Int) < opts.ttl.getD 86400 := by
    cases h : opts.ttl with
    | none => norm_num
    | some t =>
      rw [h] at hn2
      simp only [Option.isSome_some, Option.getD_some, true_and] at hn2
      simpa using hn2
  have hrt : (if (opts.ttl.getD 86400).tdiv 10 = 0 then (1 : Int)
      else (opts.ttl.getD 86400).tdiv 10).toNat
      = max 1 ((opts.ttl.getD 86400).toNat / 10) :=
    tdiv10_toNat_default _ httl
  simp only [addjobCommand, registerJob]
  rw [if_neg hn1, if_neg hn2, if_neg hn3, if_neg hn4, if_neg hn5]
  by_cases hb : 1 < opts.replicate.getD 3 ∧ opts.async = false
  · simp [hnodup, hretry, hb, hrt]
  · simp [hnodup, hretry, hb, hrt]

/-- Witness for claim C9: `ADDJOB q body 1000 TTL 100` (no RETRY)
yields rtime = 10. -/
theorem addjob_default_retry_witness :
    (addjobCommand stEmpty sampleNodeName sampleHash1 5 [113] [98]
        optsTtl100).createdJob.map Job.rtime = some 10 := by
  have h := addjob_default_retry stEmpty sampleNodeName sampleHash1 5 [113]
    [98] optsTtl100 rfl (by decide) (by decide)
  exact h.trans (by decide)

set_option maxHeartbeats 1000000 in
/-- Claim C10 (confirmed): leaving out REPLICATE and TTL is the same
as writing `REPLICATE 3` and `TTL 86400`: the command behaves —
validation, created job fields, state change and reply included —
exactly as if those values had been supplied explicitly. -/
theorem addjob_replicate_ttl_defaults
    (st : ServerState) (nn hr : List Nat) (ms : Nat) (qn bd : List Nat)
    (opts : AddjobOptions) (hrep : opts.replicate = none)
    (httl : opts.ttl = none) :
    addjobCommand st nn hr ms qn bd opts
      = addjobCommand st nn hr ms qn bd
          { opts with replicate := some 3, ttl := some (3600 * 24) } := by
  obtain ⟨r, t, ry, a⟩ := opts
  simp only at hrep httl
  subst hrep; subst httl
  simp only [addjobCommand]
  norm_num

/-- Witness for claim C10: a concrete optionless ADDJOB equals the
same ADDJOB with `REPLICATE 3 TTL 86400` spelled out. -/
theorem addjob_replicate_ttl_defaults_witness :
    addjobCommand stEmpty sampleNodeName sampleHash1 5 [113] [98] optsNone
      = addjobCommand stEmpty sampleNodeName sampleHash1 5 [113] [98]
          { optsNone with replicate := some 3, ttl := some (3600 * 24) } :=
  addjob_replicate_ttl_defaults stEmpty sampleNodeName sampleHash1 5 [113]
    [98] optsNone rfl rfl
